import Mathlib

/-!
Shallow embedding of the HDFS cost-advisor core (metadata classifier and
cost calculator) from `src/hdfs_cost_advisor/hdfs/analyzer.py`,
`src/hdfs_cost_advisor/cost/calculator.py`, and the plan-request
precondition check in `src/hdfs_cost_advisor/endpoints/optimize.py`.

Modelling conventions:
* Python `str` is modelled as Lean `String`; character-level operations
  (`split("/")`, `"/".join`, `in` substring tests, `lower()`) are defined
  over `String.data` (`List Char`), matching Python semantics.
* Python numbers: integer metadata fields (`size`, `replication`,
  `access_time`, `modification_time`, `block_size`) are `ℤ`; float
  arithmetic (scores, ages, dollar costs, the sampled current time in
  milliseconds) is modelled as exact rational arithmetic `ℚ`.
* Python's `list.sort(key=..., reverse=True)` is a stable descending
  sort; it is modelled by the stable insertion sort `sortDescBy`.
* A Python function that can raise `ZeroDivisionError` is modelled in
  `Except String`, erroring exactly when the interpreter would execute a
  division whose divisor is zero.
* `datetime.now().timestamp() * 1000`, sampled once per call in the
  source, becomes an explicit parameter `now` (milliseconds).
* Python dicts keyed by insertion order (`defaultdict` accumulation)
  are modelled as association lists whose keys appear in first-touch
  order.
-/

/-- One HDFS file-metadata record, as consumed by the analyzer.
Field defaults used by the Python `dict.get` calls (`size` → 0,
`replication` → 1, `access_time` → 0, `modification_time` → 0,
`block_size` → 0, `path` → "") are represented by the record always
carrying those values. -/
structure FileRecord where
  path : String
  size : ℤ
  replication : ℤ
  access_time : ℤ
  modification_time : ℤ
  block_size : ℤ
deriving DecidableEq, Repr

/-- Milliseconds per day: `24 * 60 * 60 * 1000`. -/
def msPerDay : ℚ := 24 * 60 * 60 * 1000

/-- The small-file threshold `64 * 1024 * 1024` bytes (64MiB). -/
def smallFileThreshold : ℤ := 64 * 1024 * 1024

/-! ### Python string primitives -/

/-- Python `pat in s` (substring test) over character lists. -/
def hasSubstr (pat : List Char) : List Char → Bool
  | [] => pat.isEmpty
  | c :: cs => (pat.isPrefixOf (c :: cs)) || hasSubstr pat cs

/-- Python `s.lower()` over character lists. -/
def pyLower (s : List Char) : List Char := s.map Char.toLower

/-- Python `s.split("/")` over character lists: splitting on `'/'`,
keeping empty segments (`"".split("/") == [""]`,
`"/a".split("/") == ["", "a"]`). -/
def splitSlash : List Char → List (List Char)
  | [] => [[]]
  | c :: cs =>
    match splitSlash cs with
    | [] => [[c]]
    | seg :: segs => if c = '/' then [] :: seg :: segs else (c :: seg) :: segs

/-- Python `"/".join(segs)` over character lists. -/
def joinSlash : List (List Char) → List Char
  | [] => []
  | [seg] => seg
  | seg :: seg2 :: segs => seg ++ '/' :: joinSlash (seg2 :: segs)

/-! ### Stable descending sort (Python `list.sort(key=..., reverse=True)`) -/

/-- Insert `x` into a descending-sorted list, before the first element
`y` with `le y x` (so that elements equal under the key, which occur
later in the original input, stay after `x`). -/
def insertDescBy {α : Type} (le : α → α → Bool) (x : α) : List α → List α
  | [] => [x]
  | y :: ys => if le y x then x :: y :: ys else y :: insertDescBy le x ys

/-- Stable descending sort by the boolean comparison `le` (`le a b`
meaning "key of `a` ≤ key of `b`"); models Python's stable
`list.sort(key=..., reverse=True)`. -/
def sortDescBy {α : Type} (le : α → α → Bool) (l : List α) : List α :=
  l.foldr (insertDescBy le) []

/-! ### `HDFSMetadataAnalyzer.identify_cold_data` (analyzer.py lines 10-30) -/

/-- A record of `identify_cold_data`'s output: the input record
augmented with `classification`, `days_since_access` and `cold_score`. -/
structure ColdRecord where
  file : FileRecord
  classification : String
  days_since_access : ℚ
  cold_score : ℚ
deriving DecidableEq, Repr

/-- The cold test from analyzer.py line 19:
`access_time < current_time - cold_threshold_days*ms_per_day`. -/
def coldPred (now : ℚ) (cold_threshold_days : ℤ) (f : FileRecord) : Bool :=
  decide ((f.access_time : ℚ) < now - cold_threshold_days * msPerDay)

/-- The augmentation from analyzer.py lines 20-26:
`days_since_access = (current_time - access_time) / ms_per_day`,
`cold_score = min(days_since_access / cold_threshold_days, 1.0)`. -/
def tagCold (now : ℚ) (cold_threshold_days : ℤ) (f : FileRecord) : ColdRecord :=
  let days_since_access : ℚ := (now - f.access_time) / msPerDay
  { file := f
    classification := "cold"
    days_since_access := days_since_access
    cold_score := min (days_since_access / cold_threshold_days) 1 }

/-- Comparison used by the final sort of `identify_cold_data`
(analyzer.py line 29): key `cold_score`, `reverse=True`. -/
def coldScoreLe (a b : ColdRecord) : Bool := decide (a.cold_score ≤ b.cold_score)

/-- The value `identify_cold_data` produces when no division by zero
occurs: the cold-filtered, augmented records, stable-sorted by
`cold_score` descending. -/
def coldDataList (now : ℚ) (cold_threshold_days : ℤ) (files : List FileRecord) :
    List ColdRecord :=
  sortDescBy coldScoreLe
    ((files.filter (coldPred now cold_threshold_days)).map (tagCold now cold_threshold_days))

/-- `HDFSMetadataAnalyzer.identify_cold_data` (analyzer.py lines 10-30).
The division `days_since_access / cold_threshold_days` is executed once
per record passing the cold test, so the call raises `ZeroDivisionError`
exactly when `cold_threshold_days = 0` and some record passes it. -/
def identify_cold_data (now : ℚ) (files : List FileRecord)
    (cold_threshold_days : ℤ := 180) : Except String (List ColdRecord) :=
  if cold_threshold_days = 0 ∧ files.any (coldPred now cold_threshold_days) then
    Except.error "ZeroDivisionError: float division by zero"
  else
    Except.ok (coldDataList now cold_threshold_days files)

/-! ### `HDFSMetadataAnalyzer.identify_orphaned_temp_files` (analyzer.py lines 122-158) -/

/-- The fixed temp-path pattern list from analyzer.py lines 125-128. -/
def tempPatterns : List String :=
  ["/tmp/", "/var/tmp/", "/_temporary/", "/temp/",
   ".tmp", ".temp", ".bak", ".backup", "_tmp", "_temp"]

/-- A record of `identify_orphaned_temp_files`' output: the input
record augmented with `classification`, `age_days`, `cleanup_priority`
and `temp_pattern`. -/
structure OrphanRecord where
  file : FileRecord
  classification : String
  age_days : ℚ
  cleanup_priority : String
  temp_pattern : String
deriving DecidableEq, Repr

/-- `any(pattern in path.lower() for pattern in temp_patterns)`
(analyzer.py line 137). -/
def isTempFile (f : FileRecord) : Bool :=
  tempPatterns.any (fun p => hasSubstr p.data (pyLower f.path.data))

/-- Per-record step of `identify_orphaned_temp_files` (analyzer.py
lines 132-154): emit the augmented record iff the path matches a temp
pattern and `file_age_days > 7`. -/
def orphanStep (now : ℚ) (f : FileRecord) : Option OrphanRecord :=
  if isTempFile f then
    let file_age_days : ℚ := (now - f.modification_time) / msPerDay
    if 7 < file_age_days then
      let cleanup_priority := if 30 < file_age_days then "high" else "medium"
      let cleanup_priority := if 90 < file_age_days then "critical" else cleanup_priority
      some { file := f
             classification := "orphaned_temp"
             age_days := file_age_days
             cleanup_priority := cleanup_priority
             temp_pattern :=
               ((tempPatterns.find? (fun p => hasSubstr p.data (pyLower f.path.data))).getD
                 "unknown") }
    else none
  else none

/-- Comparison used by the final sort of `identify_orphaned_temp_files`
(analyzer.py line 157): key `age_days`, `reverse=True`. -/
def ageDaysLe (a b : OrphanRecord) : Bool := decide (a.age_days ≤ b.age_days)

/-- `HDFSMetadataAnalyzer.identify_orphaned_temp_files` (analyzer.py
lines 122-158). `now` is the `datetime.now().timestamp() * 1000` sample
taken once per call at line 130. -/
def identify_orphaned_temp_files (now : ℚ) (files : List FileRecord) :
    List OrphanRecord :=
  sortDescBy ageDaysLe (files.filterMap (orphanStep now))

/-! ### `HDFSMetadataAnalyzer.analyze_file_efficiency` (analyzer.py lines 63-120) -/

/-- The output buckets of `analyze_file_efficiency` needed downstream
(the augmentation tags `classification`, `efficiency_impact`, `size_mb`,
`current_replication`, `suggested_replication`, `excess_replicas` are
constant decorations of the underlying record and are not inspected by
any property below, so the buckets keep the plain records). -/
structure FileEfficiency where
  total_files : ℕ
  small_files : List FileRecord
  empty_files : List FileRecord
  inefficient_replication : List FileRecord
deriving DecidableEq, Repr

/-- Empty iff `size == 0` (analyzer.py line 75). -/
def isEmptyFile (f : FileRecord) : Bool := decide (f.size = 0)

/-- Small iff not empty and `size < 64MiB` (the `elif` at
analyzer.py line 83). -/
def isSmallFile (f : FileRecord) : Bool :=
  decide (¬ f.size = 0) && decide (f.size < smallFileThreshold)

/-- Over-replicated iff `replication > 3` (analyzer.py line 92). -/
def isOverReplicated (f : FileRecord) : Bool := decide (3 < f.replication)

/-- `HDFSMetadataAnalyzer.analyze_file_efficiency` (analyzer.py lines
63-120), restricted to the classification buckets; each bucket keeps
input order, exactly as the single `for` loop appends. -/
def analyze_file_efficiency (files : List FileRecord) : FileEfficiency :=
  { total_files := files.length
    small_files := files.filter isSmallFile
    empty_files := files.filter isEmptyFile
    inefficient_replication := files.filter isOverReplicated }

/-! ### `HDFSMetadataAnalyzer.calculate_storage_waste` (analyzer.py lines 211-243) -/

/-- The result dict of `calculate_storage_waste`. -/
structure StorageWaste where
  total_size_bytes : ℤ
  total_size_gb : ℚ
  replication_waste_bytes : ℤ
  replication_waste_gb : ℚ
  empty_file_waste_bytes : ℤ
  small_file_overhead_bytes : ℤ
  total_waste_bytes : ℤ
  waste_percentage : ℚ
deriving DecidableEq, Repr

/-- `HDFSMetadataAnalyzer.calculate_storage_waste` (analyzer.py lines
211-243). Note the small-file overhead filter at lines 230-232 is
`size < 64MiB` with no lower bound, unlike `analyze_file_efficiency`'s
`elif`. -/
def calculate_storage_waste (files : List FileRecord) : StorageWaste :=
  let total_size : ℤ := (files.map (·.size)).sum
  let replication_waste : ℤ :=
    (files.map (fun f => if 3 < f.replication then f.size * (f.replication - 3) else 0)).sum
  let empty_file_waste : ℤ :=
    ((files.filter (fun f => decide (f.size = 0))).map (·.block_size)).sum
  let small_file_overhead : ℤ :=
    (files.countP (fun f => decide (f.size < smallFileThreshold))) * 150
  { total_size_bytes := total_size
    total_size_gb := (total_size : ℚ) / 1024 ^ 3
    replication_waste_bytes := replication_waste
    replication_waste_gb := (replication_waste : ℚ) / 1024 ^ 3
    empty_file_waste_bytes := empty_file_waste
    small_file_overhead_bytes := small_file_overhead
    total_waste_bytes := replication_waste + empty_file_waste + small_file_overhead
    waste_percentage :=
      if 0 < total_size then
        ((replication_waste + empty_file_waste + small_file_overhead : ℚ) / total_size) * 100
      else 0 }

/-! ### `HDFSMetadataAnalyzer.analyze_directory_structure` (analyzer.py lines 160-209) -/

/-- Per-directory statistics accumulated by the first loop of
`analyze_directory_structure` (the `defaultdict` template at analyzer.py
lines 162-168; the derived `avg_file_size` pass and the problematic
directory report are not needed by the properties below). -/
structure DirStats where
  file_count : ℕ
  total_size : ℤ
  small_files : ℕ
  large_files : ℕ
deriving DecidableEq, Repr

/-- The `defaultdict` initial value. -/
def DirStats.init : DirStats := ⟨0, 0, 0, 0⟩

/-- Directory extraction from analyzer.py line 175:
`"/".join(path.split("/")[:-1]) if "/" in path else "/"`. -/
def extractDirectory (path : String) : String :=
  if path.data.contains '/' then ⟨joinSlash ((splitSlash path.data).dropLast)⟩ else "/"

/-- Update an insertion-ordered association list at `k` with `f`,
creating the entry from the `defaultdict` default if absent (Python
dicts append new keys at the end). -/
def updAssoc (k : String) (f : DirStats → DirStats) :
    List (String × DirStats) → List (String × DirStats)
  | [] => [(k, f DirStats.init)]
  | (k', v) :: rest =>
    if k' = k then (k', f v) :: rest else (k', v) :: updAssoc k f rest

/-- One iteration of the accumulation loop (analyzer.py lines 170-184). -/
def dirStatsStep (m : List (String × DirStats)) (f : FileRecord) :
    List (String × DirStats) :=
  updAssoc (extractDirectory f.path)
    (fun st =>
      { file_count := st.file_count + 1
        total_size := st.total_size + f.size
        small_files := st.small_files + (if f.size < smallFileThreshold then 1 else 0)
        large_files := st.large_files + (if f.size < smallFileThreshold then 0 else 1) })
    m

/-- The `directory_stats` table built by `analyze_directory_structure`
(analyzer.py lines 160-184). -/
def directory_stats (files : List FileRecord) : List (String × DirStats) :=
  files.foldl dirStatsStep []

/-- Lookup in the stats table, with the `defaultdict` default. -/
def DirStats.get (m : List (String × DirStats)) (k : String) : DirStats :=
  ((m.find? (fun e => e.1 = k)).map Prod.snd).getD DirStats.init

/-! ### `HDFSMetadataAnalyzer.generate_optimization_priority` (analyzer.py lines 245-301) -/

/-- One entry of the ranked opportunity list. -/
structure OptEntry where
  type : String
  priority : String
  impact : String
  affected_files : ℕ
  potential_savings_gb : ℚ
deriving DecidableEq, Repr

/-- `priority_order = {"high": 3, "medium": 2, "low": 1}` (analyzer.py
line 298). Other strings would raise `KeyError` in Python; the entries
built by the function only carry `"high"` and `"medium"`. -/
def priority_order : String → ℕ
  | "high" => 3
  | "medium" => 2
  | "low" => 1
  | _ => 0

/-- Sort comparison for analyzer.py line 299: key
`(priority_order[priority], priority_order[impact])` compared as a
Python tuple (lexicographically), `reverse=True`. -/
def priKeyLe (a b : OptEntry) : Bool :=
  decide (priority_order a.priority < priority_order b.priority) ||
    (decide (priority_order a.priority = priority_order b.priority) &&
      decide (priority_order a.impact ≤ priority_order b.impact))

/-- `HDFSMetadataAnalyzer.generate_optimization_priority` (analyzer.py
lines 245-301). It composes `identify_cold_data` (default threshold
180, hence no division by zero), `analyze_file_efficiency`,
`identify_orphaned_temp_files` and `calculate_storage_waste`, builds at
most one entry per non-empty category in the fixed construction order
cold → small-files → orphaned → replication, then stable-sorts
descending by `(priority_rank, impact_rank)`. -/
def generate_optimization_priority (now : ℚ) (files : List FileRecord) :
    List OptEntry :=
  let cold_data := coldDataList now 180 files
  let eff := analyze_file_efficiency files
  let orphaned_files := identify_orphaned_temp_files now files
  let waste := calculate_storage_waste files
  let optimizations : List OptEntry :=
    (if cold_data.isEmpty then [] else
      [{ type := "cold_data_migration", priority := "high", impact := "high"
         affected_files := cold_data.length
         potential_savings_gb :=
           ((cold_data.map (·.file.size)).sum : ℚ) / 1024 ^ 3 * (7 / 10) }]) ++
    (if eff.small_files.length = 0 then [] else
      [{ type := "small_file_consolidation", priority := "high", impact := "medium"
         affected_files := eff.small_files.length
         potential_savings_gb := (eff.small_files.length : ℚ) * (1 / 1000) }]) ++
    (if orphaned_files.isEmpty then [] else
      [{ type := "orphaned_file_cleanup", priority := "medium", impact := "medium"
         affected_files := orphaned_files.length
         potential_savings_gb := ((orphaned_files.map (·.file.size)).sum : ℚ) / 1024 ^ 3 }]) ++
    (if eff.inefficient_replication.length = 0 then [] else
      [{ type := "replication_optimization", priority := "medium", impact := "high"
         affected_files := eff.inefficient_replication.length
         potential_savings_gb := waste.replication_waste_gb }])
  sortDescBy priKeyLe optimizations

/-! ### `cost/calculator.py`: data classes -/

/-- The `StorageCosts` dataclass (calculator.py lines 5-12). -/
structure StorageCosts where
  standard_storage_cost_per_gb : ℚ
  cold_storage_cost_per_gb : ℚ
  archive_storage_cost_per_gb : ℚ
  replication_multiplier : ℚ
  metadata_cost_per_file : ℚ
  network_cost_per_gb : ℚ
deriving DecidableEq, Repr

/-- The dataclass field defaults: 0.04, 0.01, 0.005, 1.0, 0.0001, 0.01. -/
def defaultStorageCosts : StorageCosts :=
  { standard_storage_cost_per_gb := 4 / 100
    cold_storage_cost_per_gb := 1 / 100
    archive_storage_cost_per_gb := 5 / 1000
    replication_multiplier := 1
    metadata_cost_per_file := 1 / 10000
    network_cost_per_gb := 1 / 100 }

/-- The `OptimizationSavings` dataclass (calculator.py lines 14-23). -/
structure OptimizationSavings where
  category : String
  current_cost : ℚ
  optimized_cost : ℚ
  savings : ℚ
  savings_percent : ℚ
  affected_data_gb : ℚ
  implementation_cost : ℚ
  annual_savings : ℚ
deriving DecidableEq, Repr

/-- An over-replicated entry as read by `_calculate_replication_savings`
(`size`, `current_replication` defaulting 3, `suggested_replication`
defaulting 3). -/
structure OverReplRecord where
  size : ℤ
  current_replication : ℤ
  suggested_replication : ℤ
deriving DecidableEq, Repr

/-- The scan-results mapping as read by the cost calculator and the
optimize endpoint: `status`, `total_size_gb`, `total_files`, and the
classifier output lists (of which only `size` and the replication
fields are read by the savings formulas). -/
structure ScanResults where
  status : String
  total_size_gb : ℚ
  total_files : ℕ
  small_files : List FileRecord
  cold_data : List FileRecord
  orphaned_files : List FileRecord
  over_replicated : List OverReplRecord
deriving DecidableEq, Repr

/-- Sum of `file.get("size", 0)` over a record list, in GB:
`sum(...) / (1024 ** 3)`. -/
def sizeGbOf (files : List FileRecord) : ℚ := ((files.map (·.size)).sum : ℚ) / 1024 ^ 3

/-! ### `CostCalculator.calculate_current_costs` (calculator.py lines 30-59) -/

/-- The result dict of `calculate_current_costs`. -/
structure CurrentCosts where
  storage_cost : ℚ
  metadata_cost : ℚ
  small_file_overhead : ℚ
  network_cost : ℚ
  total_monthly_cost : ℚ
  total_annual_cost : ℚ
  cost_per_gb : ℚ
deriving DecidableEq, Repr

/-- `CostCalculator.calculate_current_costs` (calculator.py lines
30-59): fixed 3x replication baseline, metadata and small-file
overheads, network estimate, with `cost_per_gb` guarded by
`if total_size_gb > 0 else 0`. -/
def calculate_current_costs (costs : StorageCosts) (scan : ScanResults) : CurrentCosts :=
  let total_size_gb := scan.total_size_gb
  let storage_cost := total_size_gb * costs.standard_storage_cost_per_gb * 3
  let metadata_cost := (scan.total_files : ℚ) * costs.metadata_cost_per_file
  let small_file_overhead := (scan.small_files.length : ℚ) * (1 / 1000)
  let network_cost := total_size_gb * (5 / 1000)
  let total_cost := storage_cost + metadata_cost + small_file_overhead + network_cost
  { storage_cost := storage_cost
    metadata_cost := metadata_cost
    small_file_overhead := small_file_overhead
    network_cost := network_cost
    total_monthly_cost := total_cost
    total_annual_cost := total_cost * 12
    cost_per_gb := if 0 < total_size_gb then total_cost / total_size_gb else 0 }

/-! ### The five per-category savings formulas (calculator.py lines 86-248) -/

/-- `CostCalculator._calculate_cold_data_savings` (calculator.py lines
86-113). -/
def calculate_cold_data_savings (costs : StorageCosts) (scan : ScanResults) :
    OptimizationSavings :=
  let cold_data_size_gb := sizeGbOf scan.cold_data
  let current_cost := cold_data_size_gb * costs.standard_storage_cost_per_gb * 3
  let optimized_cost := cold_data_size_gb * costs.cold_storage_cost_per_gb * (3 / 2)
  let implementation_cost := cold_data_size_gb * costs.network_cost_per_gb
  let savings := current_cost - optimized_cost
  let savings_percent := if 0 < current_cost then savings / current_cost * 100 else 0
  { category := "cold_data"
    current_cost := current_cost
    optimized_cost := optimized_cost
    savings := savings
    savings_percent := savings_percent
    affected_data_gb := cold_data_size_gb
    implementation_cost := implementation_cost
    annual_savings := savings * 12 }

/-- `CostCalculator._calculate_small_file_savings` (calculator.py lines
115-150). -/
def calculate_small_file_savings (costs : StorageCosts) (scan : ScanResults) :
    OptimizationSavings :=
  let small_file_count : ℚ := scan.small_files.length
  let small_file_size_gb := sizeGbOf scan.small_files
  let current_metadata_cost := small_file_count * costs.metadata_cost_per_file * 100
  let current_storage_cost := small_file_size_gb * costs.standard_storage_cost_per_gb * 3
  let current_cost := current_metadata_cost + current_storage_cost
  let optimized_file_count := small_file_count * (1 / 10)
  let optimized_metadata_cost := optimized_file_count * costs.metadata_cost_per_file * 100
  let optimized_storage_cost := small_file_size_gb * costs.standard_storage_cost_per_gb * 3
  let optimized_cost := optimized_metadata_cost + optimized_storage_cost
  let implementation_cost := small_file_count * (1 / 10000)
  let savings := current_cost - optimized_cost
  let savings_percent := if 0 < current_cost then savings / current_cost * 100 else 0
  { category := "small_files"
    current_cost := current_cost
    optimized_cost := optimized_cost
    savings := savings
    savings_percent := savings_percent
    affected_data_gb := small_file_size_gb
    implementation_cost := implementation_cost
    annual_savings := savings * 12 }

/-- `CostCalculator._calculate_replication_savings` (calculator.py
lines 152-188). The loop's `total_savings` accumulator is dead code
(it does not flow into the returned record); `total_size_gb` is the sum
of per-file `size / 1024**3`. -/
def calculate_replication_savings (costs : StorageCosts) (scan : ScanResults) :
    OptimizationSavings :=
  let total_size_gb : ℚ := (scan.over_replicated.map (fun f => (f.size : ℚ) / 1024 ^ 3)).sum
  let current_cost := total_size_gb * costs.standard_storage_cost_per_gb * 4
  let optimized_cost := total_size_gb * costs.standard_storage_cost_per_gb * 3
  let savings := current_cost - optimized_cost
  let savings_percent := if 0 < current_cost then savings / current_cost * 100 else 0
  { category := "replication"
    current_cost := current_cost
    optimized_cost := optimized_cost
    savings := savings
    savings_percent := savings_percent
    affected_data_gb := total_size_gb
    implementation_cost := 0
    annual_savings := savings * 12 }

/-- `CostCalculator._calculate_cleanup_savings` (calculator.py lines
190-216). Note line 205: `savings_percent = 100.0` unconditionally. -/
def calculate_cleanup_savings (costs : StorageCosts) (scan : ScanResults) :
    OptimizationSavings :=
  let orphaned_size_gb := sizeGbOf scan.orphaned_files
  let current_storage_cost := orphaned_size_gb * costs.standard_storage_cost_per_gb * 3
  let current_metadata_cost := (scan.orphaned_files.length : ℚ) * costs.metadata_cost_per_file
  let current_cost := current_storage_cost + current_metadata_cost
  let optimized_cost : ℚ := 0
  let savings := current_cost - optimized_cost
  { category := "cleanup"
    current_cost := current_cost
    optimized_cost := optimized_cost
    savings := savings
    savings_percent := 100
    affected_data_gb := orphaned_size_gb
    implementation_cost := 0
    annual_savings := savings * 12 }

/-- `CostCalculator._calculate_compression_savings` (calculator.py
lines 218-248): fixed 30% compression assumption. -/
def calculate_compression_savings (costs : StorageCosts) (scan : ScanResults) :
    OptimizationSavings :=
  let total_size_gb := scan.total_size_gb
  let compressed_size_gb := total_size_gb * (1 - 3 / 10)
  let current_cost := total_size_gb * costs.standard_storage_cost_per_gb * 3
  let optimized_cost := compressed_size_gb * costs.standard_storage_cost_per_gb * 3
  let implementation_cost := total_size_gb * (2 / 1000)
  let savings := current_cost - optimized_cost
  let savings_percent := if 0 < current_cost then savings / current_cost * 100 else 0
  { category := "compression"
    current_cost := current_cost
    optimized_cost := optimized_cost
    savings := savings
    savings_percent := savings_percent
    affected_data_gb := total_size_gb
    implementation_cost := implementation_cost
    annual_savings := savings * 12 }

/-! ### `CostCalculator.estimate_storage_growth` (calculator.py lines 290-314) -/

/-- One year's projection entry. -/
structure GrowthProjection where
  year : ℕ
  projected_size_gb : ℚ
  projected_monthly_cost : ℚ
  projected_annual_cost : ℚ
deriving DecidableEq, Repr

/-- The result dict of `estimate_storage_growth`. -/
structure GrowthResult where
  current_size_gb : ℚ
  growth_rate_percent : ℚ
  projections : List GrowthProjection
  three_year_total_cost : ℚ
deriving DecidableEq, Repr

/-- One projection (calculator.py lines 299-307), defined when
`current_size_gb ≠ 0`. -/
def growthProjection (current_size_gb monthly_cost rate : ℚ) (year : ℕ) :
    GrowthProjection :=
  let projected_size := current_size_gb * (1 + rate / 100) ^ year
  let projected_monthly_cost := (projected_size / current_size_gb) * monthly_cost
  { year := year
    projected_size_gb := projected_size
    projected_monthly_cost := projected_monthly_cost
    projected_annual_cost := projected_monthly_cost * 12 }

/-- `CostCalculator.estimate_storage_growth` (calculator.py lines
290-314). The division `projected_size / current_size_gb` at line 300
is not guarded, so the first loop iteration raises `ZeroDivisionError`
whenever `current_size_gb = 0`. -/
def estimate_storage_growth (costs : StorageCosts) (scan : ScanResults)
    (growth_rate_percent : ℚ := 20) : Except String GrowthResult :=
  let current_size_gb := scan.total_size_gb
  let current_costs := calculate_current_costs costs scan
  if current_size_gb = 0 then
    Except.error "ZeroDivisionError: division by zero"
  else
    let proj := fun y =>
      growthProjection current_size_gb current_costs.total_monthly_cost growth_rate_percent y
    let projections := [proj 1, proj 2, proj 3]
    Except.ok
      { current_size_gb := current_size_gb
        growth_rate_percent := growth_rate_percent
        projections := projections
        three_year_total_cost := (projections.map (·.projected_annual_cost)).sum }

/-! ### The plan-request precondition (endpoints/optimize.py lines 16-45) -/

/-- The `ValueError` message raised at optimize.py line 29:
`f"Scan {scan_id} is not completed or failed"`. -/
def scanNotReadyMessage (scan_id : String) : String :=
  "Scan " ++ scan_id ++ " is not completed or failed"

/-- The precondition-checking prefix of
`generate_recommendations` (optimize.py lines 16-45): after retrieving
the scan results, the status gate at line 28 raises (and the `except`
block re-raises after recording the failure) before any cost
computation, LLM call or plan construction happens; everything after
the gate is abstracted as the continuation `buildPlan`. -/
def generate_recommendations {Plan : Type} (buildPlan : ScanResults → Plan)
    (scan_id : String) (scan : ScanResults) : Except String Plan :=
  if scan.status ≠ "completed" then Except.error (scanNotReadyMessage scan_id)
  else Except.ok (buildPlan scan)

/-! ### Concrete inputs and derived keys used by the claim theorems -/

/-- A completed scan of zero files: `total_size_gb = 0`, every list
empty (the shape `execute_scan` stores for an empty path set). -/
def zeroSizeScan : ScanResults :=
  { status := "completed", total_size_gb := 0, total_files := 0,
    small_files := [], cold_data := [], orphaned_files := [], over_replicated := [] }

/-- A failed scan record, used to exercise the plan-request gate. -/
def failedScan : ScanResults :=
  { status := "failed", total_size_gb := 0, total_files := 0,
    small_files := [], cold_data := [], orphaned_files := [], over_replicated := [] }

/-- A completed scan with data but an empty orphaned-file list. -/
def emptyCleanupScan : ScanResults :=
  { status := "completed", total_size_gb := 5, total_files := 3,
    small_files := [], cold_data := [], orphaned_files := [], over_replicated := [] }

/-- Scenario A's single input record: size 200MiB (209715200 bytes),
replication 3, `access_time = modification_time = now`, path
`/data/a.parquet` (block size 128MiB, irrelevant to the outcome). -/
def scenarioAFile (n : ℤ) : FileRecord :=
  { path := "/data/a.parquet", size := 209715200, replication := 3,
    access_time := n, modification_time := n, block_size := 134217728 }

/-- The scan-results record `execute_scan` assembles for Scenario A:
`total_size_gb = sum(size) / 1024**3` (scan.py lines 72-73) and the
classifier outputs for the single record. -/
def scenarioAScan (n : ℤ) : ScanResults :=
  { status := "completed"
    total_size_gb := sizeGbOf [scenarioAFile n]
    total_files := 1
    small_files := (analyze_file_efficiency [scenarioAFile n]).small_files
    cold_data := (coldDataList (n : ℚ) 180 [scenarioAFile n]).map (·.file)
    orphaned_files := (identify_orphaned_temp_files (n : ℚ) [scenarioAFile n]).map (·.file)
    over_replicated :=
      ((analyze_file_efficiency [scenarioAFile n]).inefficient_replication).map
        (fun f => ⟨f.size, f.replication, 3⟩) }

/-- Python `path.split("/")[-1]`: the final segment of the split. -/
def lastSegment (s : List Char) : List Char := ((splitSlash s).getLast?).getD []

/-- The lexicographic sort key of analyzer.py line 299:
`(priority_order[priority], priority_order[impact])` under Python tuple
comparison. -/
def priKey (e : OptEntry) : Lex (ℕ × ℕ) :=
  toLex (priority_order e.priority, priority_order e.impact)

/-! ### Properties of the stable descending sort -/

section SortLemmas

variable {α : Type} {β : Type} [LinearOrder β] {le : α → α → Bool} {k : α → β}

/-- Membership is preserved by insertion. -/
theorem mem_insertDescBy {x a : α} {l : List α} :
    a ∈ insertDescBy le x l ↔ a = x ∨ a ∈ l := by
  induction l with
  | nil => simp [insertDescBy]
  | cons y ys ih =>
    by_cases h : le y x = true
    · simp [insertDescBy, if_pos h]
    · simp only [insertDescBy, if_neg h, List.mem_cons, ih]
      tauto

/-- Insertion produces a permutation of consing. -/
theorem insertDescBy_perm (x : α) (l : List α) :
    List.Perm (insertDescBy le x l) (x :: l) := by
  induction l with
  | nil => simp [insertDescBy]
  | cons y ys ih =>
    by_cases h : le y x = true
    · simp [insertDescBy, if_pos h]
    · rw [insertDescBy, if_neg h]
      exact ((ih.cons y).trans (List.Perm.swap x y ys))

/-- The sort permutes its input. -/
theorem sortDescBy_perm (l : List α) : List.Perm (sortDescBy le l) l := by
  induction l with
  | nil => exact List.Perm.refl _
  | cons x xs ih =>
    exact (insertDescBy_perm x (sortDescBy le xs)).trans (ih.cons x)

/-- Insertion preserves descending sortedness with respect to the key. -/
theorem pairwise_insertDescBy (hle : ∀ a b, le a b = true ↔ k a ≤ k b) {x : α}
    {l : List α} (h : l.Pairwise (fun a b => k b ≤ k a)) :
    (insertDescBy le x l).Pairwise (fun a b => k b ≤ k a) := by
  induction l with
  | nil => simp [insertDescBy]
  | cons y ys ih =>
    rw [List.pairwise_cons] at h
    obtain ⟨hy, hys⟩ := h
    by_cases hc : le y x = true
    · rw [insertDescBy, if_pos hc, List.pairwise_cons]
      refine ⟨?_, List.Pairwise.cons hy hys⟩
      intro z hz
      rcases List.mem_cons.mp hz with h1 | h2
      · rw [h1]
        exact (hle y x).mp hc
      · exact le_trans (hy z h2) ((hle y x).mp hc)
    · rw [insertDescBy, if_neg hc, List.pairwise_cons]
      refine ⟨?_, ih hys⟩
      intro z hz
      rcases mem_insertDescBy.mp hz with h1 | h2
      · rw [h1]
        exact le_of_not_le (fun hyx => hc ((hle y x).mpr hyx))
      · exact hy z h2

/-- The sorted output is descending in the key. -/
theorem pairwise_sortDescBy (hle : ∀ a b, le a b = true ↔ k a ≤ k b) (l : List α) :
    (sortDescBy le l).Pairwise (fun a b => k b ≤ k a) := by
  induction l with
  | nil => simp [sortDescBy]
  | cons x xs ih => exact pairwise_insertDescBy hle ih

/-- Stability, expressed through key classes: inserting `x` and then
restricting to any key value `v` agrees with restricting `x :: l`. -/
theorem filter_insertDescBy (hle : ∀ a b, le a b = true ↔ k a ≤ k b) (x : α)
    (l : List α) (v : β) :
    (insertDescBy le x l).filter (fun a => decide (k a = v)) =
      (x :: l).filter (fun a => decide (k a = v)) := by
  induction l with
  | nil => rfl
  | cons y ys ih =>
    by_cases hc : le y x = true
    · rw [insertDescBy, if_pos hc]
    · rw [insertDescBy, if_neg hc]
      by_cases hx : k x = v
      · have hy : ¬ k y = v := fun hyv => hc ((hle y x).mpr (le_of_eq (hyv.trans hx.symm)))
        simp [List.filter_cons, hx, hy, ih]
      · by_cases hy : k y = v
        · simp [List.filter_cons, hx, hy, ih]
        · simp [List.filter_cons, hx, hy, ih]

/-- Stability of the full sort: for every key value `v`, the `v`-keyed
subsequence of the output equals that of the input (so equal-key
elements keep their input order). -/
theorem filter_sortDescBy (hle : ∀ a b, le a b = true ↔ k a ≤ k b) (l : List α)
    (v : β) :
    (sortDescBy le l).filter (fun a => decide (k a = v)) =
      l.filter (fun a => decide (k a = v)) := by
  induction l with
  | nil => rfl
  | cons x xs ih =>
    have h1 : sortDescBy le (x :: xs) = insertDescBy le x (sortDescBy le xs) := rfl
    rw [h1, filter_insertDescBy hle]
    simp only [List.filter_cons, ih]

end SortLemmas

/-! ### Concrete inputs used by the claim theorems -/

/-! ### Claim C1 -/

/-- C1: the claim states that no cost-calculator operation ever raises
on a division by zero and that `estimate_storage_growth` on a scan with
`total_size_gb = 0` returns a well-formed result. The code contradicts
this: the division `projected_size / current_size_gb` at
calculator.py line 300 is unguarded, so the call raises
`ZeroDivisionError` on that input — while the sibling
`calculate_current_costs` does guard its division (`cost_per_gb = 0`),
which is the documented behaviour the slip deviates from. -/
theorem estimate_storage_growth_zero_size_raises :
    estimate_storage_growth defaultStorageCosts zeroSizeScan =
      Except.error "ZeroDivisionError: division by zero" ∧
    (calculate_current_costs defaultStorageCosts zeroSizeScan).cost_per_gb = 0 := by
  constructor
  · simp [estimate_storage_growth, zeroSizeScan]
  · norm_num [calculate_current_costs, zeroSizeScan]

/-! ### Claim C2 -/

/-- C2: for every scan whose status is not `"completed"`, the plan
request is rejected with the `ValueError` message naming the scan id
(optimize.py lines 28-29), and no plan value is ever produced — the
result is never a fabricated `Except.ok` plan. `buildPlan` abstracts
everything `generate_recommendations` would do after the gate, so the
statement holds for every possible downstream plan construction. -/
theorem generate_recommendations_rejects_incomplete {Plan : Type}
    (buildPlan : ScanResults → Plan) (scan_id : String) (scan : ScanResults)
    (h : scan.status ≠ "completed") :
    generate_recommendations buildPlan scan_id scan =
      Except.error ("Scan " ++ scan_id ++ " is not completed or failed") ∧
    ∀ p : Plan, generate_recommendations buildPlan scan_id scan ≠ Except.ok p := by
  have he : generate_recommendations buildPlan scan_id scan =
      Except.error (scanNotReadyMessage scan_id) := by
    rw [generate_recommendations, if_pos h]
  refine ⟨he, fun p hp => ?_⟩
  rw [he] at hp
  exact Except.noConfusion hp

/-- Witness for C2 at a concrete failed scan. -/
theorem generate_recommendations_rejects_incomplete_witness :
    generate_recommendations (fun _ => (0 : ℕ)) "abc123" failedScan =
      Except.error ("Scan " ++ "abc123" ++ " is not completed or failed") ∧
    ∀ p : ℕ, generate_recommendations (fun _ => (0 : ℕ)) "abc123" failedScan ≠
      Except.ok p :=
  generate_recommendations_rejects_incomplete (fun _ => (0 : ℕ)) "abc123" failedScan
    (by decide)

/-! ### Claim C5 -/

/-- C5 counterexample: the claim says records with `size = 0` do not
contribute to the small-file overhead. On a single zero-size record
the code produces an overhead of 150 bytes even though the efficiency
classifier puts the record in the empty (not small) bucket, so the
claimed overhead (`150 * number of small files = 0`) is wrong. -/
theorem small_file_overhead_counts_empty_files :
    (calculate_storage_waste [⟨"/e", 0, 1, 0, 0, 7⟩]).small_file_overhead_bytes = 150 ∧
    (analyze_file_efficiency [⟨"/e", 0, 1, 0, 0, 7⟩]).small_files = [] ∧
    (150 : ℤ) ≠ 0 := by
  refine ⟨rfl, rfl, by decide⟩

/-- C5 (amended): `calculate_storage_waste`'s small-file overhead is
150 bytes per record with `size < 64MiB` with no lower bound
(analyzer.py lines 230-232), i.e. 150 times the number of small files
(`0 < size < 64MiB` up to the nonpositive-size degenerate cases) plus
the number of empty files; zero-size records do contribute. -/
theorem small_file_overhead_spec (files : List FileRecord) :
    (calculate_storage_waste files).small_file_overhead_bytes =
      150 * (((analyze_file_efficiency files).small_files.length : ℤ) +
        ((analyze_file_efficiency files).empty_files.length : ℤ)) := by
  have hsplit : ∀ fs : List FileRecord,
      fs.countP (fun f => decide (f.size < smallFileThreshold)) =
        fs.countP isSmallFile + fs.countP isEmptyFile := by
    intro fs
    induction fs with
    | nil => rfl
    | cons f fs ih =>
      simp only [List.countP_cons, ih, isSmallFile, isEmptyFile]
      by_cases h0 : f.size = 0
      · have h1 : f.size < smallFileThreshold := by
          rw [h0]
          decide
        simp only [decide_eq_true h1, decide_eq_true h0, decide_eq_true_eq]
        simp [h0]
        omega
      · by_cases h1 : f.size < smallFileThreshold
        · simp only [decide_eq_true h1]
          simp [h0]
          omega
        · simp [h0, h1]
  have hw : (calculate_storage_waste files).small_file_overhead_bytes =
      ((files.countP (fun f => decide (f.size < smallFileThreshold))) : ℤ) * 150 := rfl
  have hs : (analyze_file_efficiency files).small_files.length =
      files.countP isSmallFile := (List.countP_eq_length_filter _ _).symm
  have he : (analyze_file_efficiency files).empty_files.length =
      files.countP isEmptyFile := (List.countP_eq_length_filter _ _).symm
  rw [hw, hsplit, hs, he]
  push_cast
  ring

/-! ### Claim C6 -/

/-- C6 counterexample: for the cleanup category on a scan with an empty
orphaned-file list, `current_cost = 0` yet `savings_percent = 100`
(calculator.py line 205 hard-codes `100.0`), contradicting the claimed
`savings_percent = 0` when `current_cost ≤ 0`. -/
theorem cleanup_savings_percent_counterexample :
    (calculate_cleanup_savings defaultStorageCosts emptyCleanupScan).current_cost = 0 ∧
    (calculate_cleanup_savings defaultStorageCosts emptyCleanupScan).savings_percent = 100 ∧
    ((100 : ℚ) ≠ 0) := by
  refine ⟨?_, rfl, by norm_num⟩
  show sizeGbOf ([] : List FileRecord) * (4 / 100) * 3 +
      ((0 : ℕ) : ℚ) * (1 / 10000) = 0
  norm_num [sizeGbOf]

/-- C6 (amended): the guarded formula
`savings_percent = savings/current_cost*100` if `current_cost > 0`,
else `0`, holds in the cold-data, small-files, replication and
compression categories; the cleanup category instead returns
`savings_percent = 100` unconditionally (in particular `100`, not `0`,
when the orphaned-file list is empty and `current_cost = 0`). -/
theorem savings_percent_spec (costs : StorageCosts) (scan : ScanResults) :
    ((calculate_cold_data_savings costs scan).savings_percent =
      if 0 < (calculate_cold_data_savings costs scan).current_cost then
        (calculate_cold_data_savings costs scan).savings /
          (calculate_cold_data_savings costs scan).current_cost * 100
      else 0) ∧
    ((calculate_small_file_savings costs scan).savings_percent =
      if 0 < (calculate_small_file_savings costs scan).current_cost then
        (calculate_small_file_savings costs scan).savings /
          (calculate_small_file_savings costs scan).current_cost * 100
      else 0) ∧
    ((calculate_replication_savings costs scan).savings_percent =
      if 0 < (calculate_replication_savings costs scan).current_cost then
        (calculate_replication_savings costs scan).savings /
          (calculate_replication_savings costs scan).current_cost * 100
      else 0) ∧
    ((calculate_compression_savings costs scan).savings_percent =
      if 0 < (calculate_compression_savings costs scan).current_cost then
        (calculate_compression_savings costs scan).savings /
          (calculate_compression_savings costs scan).current_cost * 100
      else 0) ∧
    (calculate_cleanup_savings costs scan).savings_percent = 100 :=
  ⟨rfl, rfl, rfl, rfl, rfl⟩

/-! ### Claim C3 -/

/-- The cold-score comparison agrees with the `cold_score` key. -/
theorem coldScoreLe_iff (a b : ColdRecord) :
    coldScoreLe a b = true ↔ a.cold_score ≤ b.cold_score := by
  simp [coldScoreLe]

/-- C3 counterexample: the claim quantifies over every non-negative
`threshold_days`, but at `threshold_days = 0` with a qualifying record
the code divides `days_since_access` by zero (analyzer.py line 25) and
raises instead of returning the tagged list. -/
theorem identify_cold_data_zero_threshold_raises :
    identify_cold_data msPerDay [⟨"/d/x", 10, 1, 0, 0, 0⟩] 0 =
      Except.error "ZeroDivisionError: float division by zero" := by
  rw [identify_cold_data, if_pos]
  refine ⟨rfl, ?_⟩
  show List.any _ _ = true
  simp only [List.any_cons, List.any_nil, Bool.or_false, coldPred]
  norm_num [msPerDay]

/-- C3 (amended): for every file collection and every positive
`threshold_days`, cold-data identification succeeds and returns exactly
the records with `access_time < now - threshold_days*ms_per_day`, each
tagged with `cold_score = min(days_since_access/threshold_days, 1.0)`,
sorted by `cold_score` descending with ties preserving input order
(stated as: the output is a permutation of the filtered tagged list, it
agrees with it on every `cold_score` class — which pins down the order
of ties — and it is pairwise descending). At `threshold_days = 0` the
function instead raises whenever any record qualifies. -/
theorem identify_cold_data_spec (now : ℚ) (t : ℤ) (files : List FileRecord)
    (ht : 1 ≤ t) :
    identify_cold_data now files t = Except.ok (coldDataList now t files) ∧
    List.Perm (coldDataList now t files)
      ((files.filter (coldPred now t)).map (tagCold now t)) ∧
    (∀ v : ℚ, (coldDataList now t files).filter (fun r => decide (r.cold_score = v)) =
      ((files.filter (coldPred now t)).map (tagCold now t)).filter
        (fun r => decide (r.cold_score = v))) ∧
    (coldDataList now t files).Pairwise (fun a b => b.cold_score ≤ a.cold_score) ∧
    (∀ r ∈ coldDataList now t files,
      ((r.file.access_time : ℚ) < now - t * msPerDay) ∧
      r.cold_score = min (((now - r.file.access_time) / msPerDay) / t) 1) := by
  refine ⟨?_, sortDescBy_perm _, fun v => filter_sortDescBy coldScoreLe_iff _ v,
    pairwise_sortDescBy coldScoreLe_iff _, ?_⟩
  · rw [identify_cold_data, if_neg]
    rintro ⟨h0, -⟩
    omega
  · intro r hr
    have hr2 : r ∈ (files.filter (coldPred now t)).map (tagCold now t) :=
      (sortDescBy_perm _).mem_iff.mp hr
    obtain ⟨f, hf, rfl⟩ := List.mem_map.mp hr2
    have hpred : coldPred now t f = true := (List.mem_filter.mp hf).2
    rw [coldPred, decide_eq_true_eq] at hpred
    exact ⟨hpred, rfl⟩

/-- Witness for C3 at a two-day-old clock, threshold one day, one
record with `access_time = 0`. -/
theorem identify_cold_data_spec_witness :
    identify_cold_data (172800000 : ℚ) [⟨"/d/x", 10, 1, 0, 0, 0⟩] 1 =
      Except.ok (coldDataList (172800000 : ℚ) 1 [⟨"/d/x", 10, 1, 0, 0, 0⟩]) ∧
    List.Perm (coldDataList (172800000 : ℚ) 1 [⟨"/d/x", 10, 1, 0, 0, 0⟩])
      (([⟨"/d/x", 10, 1, 0, 0, 0⟩].filter (coldPred (172800000 : ℚ) 1)).map
        (tagCold (172800000 : ℚ) 1)) ∧
    (∀ v : ℚ, (coldDataList (172800000 : ℚ) 1 [⟨"/d/x", 10, 1, 0, 0, 0⟩]).filter
        (fun r => decide (r.cold_score = v)) =
      (([⟨"/d/x", 10, 1, 0, 0, 0⟩].filter (coldPred (172800000 : ℚ) 1)).map
        (tagCold (172800000 : ℚ) 1)).filter (fun r => decide (r.cold_score = v))) ∧
    (coldDataList (172800000 : ℚ) 1 [⟨"/d/x", 10, 1, 0, 0, 0⟩]).Pairwise
      (fun a b => b.cold_score ≤ a.cold_score) ∧
    (∀ r ∈ coldDataList (172800000 : ℚ) 1 [⟨"/d/x", 10, 1, 0, 0, 0⟩],
      ((r.file.access_time : ℚ) < (172800000 : ℚ) - 1 * msPerDay) ∧
      r.cold_score = min ((((172800000 : ℚ) - r.file.access_time) / msPerDay) / 1) 1) :=
  identify_cold_data_spec (172800000 : ℚ) 1 [⟨"/d/x", 10, 1, 0, 0, 0⟩] le_rfl

/-! ### Claim C10 -/

/-- C10 counterexample: the claim includes `threshold_days = 0` (any
non-negative threshold with `threshold_days*ms_per_day < now_ms`), but
there a record with `access_time = 0` makes the code divide by zero and
raise, rather than being classified cold with score 1.0. -/
theorem unknown_access_time_zero_threshold_raises :
    identify_cold_data (259200000 : ℚ) [⟨"/u/y", 5, 1, 0, 0, 0⟩] 0 =
      Except.error "ZeroDivisionError: float division by zero" := by
  rw [identify_cold_data, if_pos]
  refine ⟨rfl, ?_⟩
  show List.any _ _ = true
  simp only [List.any_cons, List.any_nil, Bool.or_false, coldPred]
  norm_num [msPerDay]

/-- C10 (amended): for every record with `access_time = 0` and every
positive `threshold_days` with `threshold_days*ms_per_day < now_ms`,
cold-data identification succeeds, classifies the record as cold, and
assigns it `cold_score` exactly `1.0` — the maximum possible score, so
such records rank at the top of the cold list. -/
theorem unknown_access_time_max_cold_score (now : ℚ) (t : ℤ) (f : FileRecord)
    (files : List FileRecord) (ht : 1 ≤ t) (hn : t * msPerDay < now)
    (ha : f.access_time = 0) (hf : f ∈ files) :
    identify_cold_data now files t = Except.ok (coldDataList now t files) ∧
    tagCold now t f ∈ coldDataList now t files ∧
    (tagCold now t f).cold_score = 1 ∧
    ∀ r ∈ coldDataList now t files, r.cold_score ≤ 1 := by
  have hday : (0 : ℚ) < msPerDay := by norm_num [msPerDay]
  have htq : (0 : ℚ) < (t : ℚ) := by
    exact_mod_cast lt_of_lt_of_le Int.zero_lt_one ht
  have hpred : coldPred now t f = true := by
    rw [coldPred, decide_eq_true_eq, ha]
    push_cast
    linarith
  refine ⟨?_, ?_, ?_, ?_⟩
  · rw [identify_cold_data, if_neg]
    rintro ⟨h0, -⟩
    omega
  · exact (sortDescBy_perm _).mem_iff.mpr
      (List.mem_map_of_mem _ (List.mem_filter.mpr ⟨hf, hpred⟩))
  · show min (((now - (f.access_time : ℚ)) / msPerDay) / t) 1 = 1
    rw [ha]
    have h1 : (1 : ℚ) < ((now - 0) / msPerDay) / t := by
      rw [div_div, one_lt_div (by positivity)]
      linarith [hn]
    exact min_eq_right (le_of_lt h1)
  · intro r hr
    obtain ⟨g, hg, rfl⟩ := List.mem_map.mp ((sortDescBy_perm _).mem_iff.mp hr)
    exact min_le_right _ _

/-- Witness for C10: one record with unknown access time, threshold one
day, clock at two days. -/
theorem unknown_access_time_max_cold_score_witness :
    identify_cold_data (172800000 : ℚ) [⟨"/u/y", 5, 1, 0, 0, 0⟩] 1 =
      Except.ok (coldDataList (172800000 : ℚ) 1 [⟨"/u/y", 5, 1, 0, 0, 0⟩]) ∧
    tagCold (172800000 : ℚ) 1 ⟨"/u/y", 5, 1, 0, 0, 0⟩ ∈
      coldDataList (172800000 : ℚ) 1 [⟨"/u/y", 5, 1, 0, 0, 0⟩] ∧
    (tagCold (172800000 : ℚ) 1 ⟨"/u/y", 5, 1, 0, 0, 0⟩).cold_score = 1 ∧
    ∀ r ∈ coldDataList (172800000 : ℚ) 1 [⟨"/u/y", 5, 1, 0, 0, 0⟩],
      r.cold_score ≤ 1 :=
  unknown_access_time_max_cold_score (172800000 : ℚ) 1 ⟨"/u/y", 5, 1, 0, 0, 0⟩
    [⟨"/u/y", 5, 1, 0, 0, 0⟩] le_rfl (by norm_num [msPerDay]) rfl
    (List.mem_singleton.mpr rfl)

/-! ### Claim C8 -/

/-- C8 counterexample: the classifiers read the ambient clock
(`datetime.now()` at analyzer.py lines 14 and 130), so two calls on the
same unchanged input at different times return different `age_days`
values — here the same `/tmp` record scanned at day 10 and at day 20
since its modification time. -/
theorem classifier_clock_dependence :
    identify_orphaned_temp_files (864000000 : ℚ) [⟨"/tmp/a", 1, 1, 0, 0, 0⟩] ≠
      identify_orphaned_temp_files (1728000000 : ℚ) [⟨"/tmp/a", 1, 1, 0, 0, 0⟩] := by
  have htmp : isTempFile ⟨"/tmp/a", 1, 1, 0, 0, 0⟩ = true := by decide
  have hfind : (tempPatterns.find? (fun p =>
      hasSubstr p.data (pyLower (FileRecord.mk "/tmp/a" 1 1 0 0 0).path.data))) =
      some "/tmp/" := by decide
  have h10 : identify_orphaned_temp_files (864000000 : ℚ) [⟨"/tmp/a", 1, 1, 0, 0, 0⟩] =
      [⟨⟨"/tmp/a", 1, 1, 0, 0, 0⟩, "orphaned_temp", 10, "medium", "/tmp/"⟩] := by
    rw [identify_orphaned_temp_files]
    rw [show List.filterMap (orphanStep (864000000 : ℚ)) [⟨"/tmp/a", 1, 1, 0, 0, 0⟩] =
        [⟨⟨"/tmp/a", 1, 1, 0, 0, 0⟩, "orphaned_temp", 10, "medium", "/tmp/"⟩] from ?_]
    · rfl
    · rw [List.filterMap]
      rw [orphanStep, if_pos htmp]
      norm_num [msPerDay, hfind]
  have h20 : identify_orphaned_temp_files (1728000000 : ℚ) [⟨"/tmp/a", 1, 1, 0, 0, 0⟩] =
      [⟨⟨"/tmp/a", 1, 1, 0, 0, 0⟩, "orphaned_temp", 20, "medium", "/tmp/"⟩] := by
    rw [identify_orphaned_temp_files]
    rw [show List.filterMap (orphanStep (1728000000 : ℚ)) [⟨"/tmp/a", 1, 1, 0, 0, 0⟩] =
        [⟨⟨"/tmp/a", 1, 1, 0, 0, 0⟩, "orphaned_temp", 20, "medium", "/tmp/"⟩] from ?_]
    · rfl
    · rw [List.filterMap]
      rw [orphanStep, if_pos htmp]
      norm_num [msPerDay, hfind]
  rw [h10, h20]
  intro h
  have h2 : (10 : ℚ) = 20 := congrArg (fun l => ((l.headD
    ⟨⟨"", 0, 0, 0, 0, 0⟩, "", 0, "", ""⟩).age_days)) h
  norm_num at h2

/-- C8 (amended): each classifier is a deterministic function of the
sampled current time and the input collection — two calls with the same
time sample and the same input yield identical output (including
`cold_score` and `age_days`); but because the source samples
`datetime.now()` afresh inside every call, two real calls at different
times differ in those fields, as the counterexample shows. -/
theorem classifiers_deterministic (t1 t2 : ℚ) (files : List FileRecord)
    (h : t1 = t2) :
    identify_cold_data t1 files 180 = identify_cold_data t2 files 180 ∧
    identify_orphaned_temp_files t1 files = identify_orphaned_temp_files t2 files ∧
    analyze_file_efficiency files = analyze_file_efficiency files ∧
    calculate_storage_waste files = calculate_storage_waste files := by
  rw [h]
  exact ⟨rfl, rfl, rfl, rfl⟩

/-- Witness for C8's amended determinism statement. -/
theorem classifiers_deterministic_witness :
    identify_cold_data (864000000 : ℚ) [⟨"/tmp/a", 1, 1, 0, 0, 0⟩] 180 =
      identify_cold_data (864000000 : ℚ) [⟨"/tmp/a", 1, 1, 0, 0, 0⟩] 180 ∧
    identify_orphaned_temp_files (864000000 : ℚ) [⟨"/tmp/a", 1, 1, 0, 0, 0⟩] =
      identify_orphaned_temp_files (864000000 : ℚ) [⟨"/tmp/a", 1, 1, 0, 0, 0⟩] ∧
    analyze_file_efficiency [⟨"/tmp/a", 1, 1, 0, 0, 0⟩] =
      analyze_file_efficiency [⟨"/tmp/a", 1, 1, 0, 0, 0⟩] ∧
    calculate_storage_waste [⟨"/tmp/a", 1, 1, 0, 0, 0⟩] =
      calculate_storage_waste [⟨"/tmp/a", 1, 1, 0, 0, 0⟩] :=
  classifiers_deterministic (864000000 : ℚ) (864000000 : ℚ)
    [⟨"/tmp/a", 1, 1, 0, 0, 0⟩] rfl

/-! ### Claim C9 -/

/-- The boolean comparison agrees with the lexicographic key. -/
theorem priKeyLe_iff (a b : OptEntry) : priKeyLe a b = true ↔ priKey a ≤ priKey b := by
  rw [priKey, priKey, Prod.Lex.le_iff]
  simp [priKeyLe]

/-- C9: `generate_optimization_priority` emits one entry per non-empty
category with the fixed tags — cold_data_migration (high, high),
small_file_consolidation (high, medium), orphaned_file_cleanup
(medium, medium), replication_optimization (medium, high) — and the
returned list is exactly the present entries in descending
`(priority_rank, impact_rank)` order (cold → small-files → replication
→ orphaned), which coincides with the claim's tie-break rule since no
two distinct categories share a rank pair; the output is pairwise
descending in the key. -/
theorem generate_optimization_priority_spec (now : ℚ) (files : List FileRecord) :
    generate_optimization_priority now files =
      (if (coldDataList now 180 files).isEmpty then [] else
        [{ type := "cold_data_migration", priority := "high", impact := "high"
           affected_files := (coldDataList now 180 files).length
           potential_savings_gb :=
             (((coldDataList now 180 files).map (·.file.size)).sum : ℚ) / 1024 ^ 3 *
               (7 / 10) }]) ++
      (if (analyze_file_efficiency files).small_files.length = 0 then [] else
        [{ type := "small_file_consolidation", priority := "high", impact := "medium"
           affected_files := (analyze_file_efficiency files).small_files.length
           potential_savings_gb :=
             ((analyze_file_efficiency files).small_files.length : ℚ) * (1 / 1000) }]) ++
      (if (analyze_file_efficiency files).inefficient_replication.length = 0 then [] else
        [{ type := "replication_optimization", priority := "medium", impact := "high"
           affected_files := (analyze_file_efficiency files).inefficient_replication.length
           potential_savings_gb := (calculate_storage_waste files).replication_waste_gb }]) ++
      (if (identify_orphaned_temp_files now files).isEmpty then [] else
        [{ type := "orphaned_file_cleanup", priority := "medium", impact := "medium"
           affected_files := (identify_orphaned_temp_files now files).length
           potential_savings_gb :=
             (((identify_orphaned_temp_files now files).map (·.file.size)).sum : ℚ) /
               1024 ^ 3 }]) ∧
    (generate_optimization_priority now files).Pairwise (fun a b => priKey b ≤ priKey a) := by
  refine ⟨?_, pairwise_sortDescBy priKeyLe_iff _⟩
  by_cases h2 : (analyze_file_efficiency files).small_files.length = 0 <;>
    by_cases h4 : (analyze_file_efficiency files).inefficient_replication.length = 0 <;>
    cases h1 : (coldDataList now 180 files).isEmpty <;>
    cases h3 : (identify_orphaned_temp_files now files).isEmpty <;>
    simp only [generate_optimization_priority, h1, h2, h3, h4, if_true, if_false,
      Bool.false_eq_true, if_neg, if_pos, not_false_iff] <;>
    rfl

/-! ### Claim C7 -/

/-- C7 counterexample: on Scenario A's input the storage cost is
`(209715200/1024³) * 0.04 * 3 = 3/128 = 0.0234375` dollars — not
approximately `24.0` as the claim states (the claim's `200 * 0.04 * 3`
treats the 200MiB size as if it were 200GB). -/
theorem scenario_a_storage_cost_not_24 :
    (calculate_current_costs defaultStorageCosts
      (scenarioAScan 1700000000000)).storage_cost = 3 / 128 ∧
    (calculate_current_costs defaultStorageCosts
      (scenarioAScan 1700000000000)).storage_cost < 1 := by
  have h : (calculate_current_costs defaultStorageCosts
      (scenarioAScan 1700000000000)).storage_cost =
      sizeGbOf [scenarioAFile 1700000000000] * (4 / 100) * 3 := rfl
  rw [h]
  norm_num [sizeGbOf, scenarioAFile]

/-- C7 (amended): for Scenario A's input (one 200MiB file, replication
3, access time equal to the scan clock, path `/data/a.parquet`), the
cold, small, over-replicated and orphaned classifications are all
empty, and `calculate_current_costs` with the default `StorageCosts`
gives `storage_cost = (200/1024) * 0.04 * 3 = 3/128 = 0.0234375`
(not 24.0: `total_size_gb` is about 0.195, not 200). -/
theorem scenario_a_spec (n : ℤ) :
    identify_cold_data (n : ℚ) [scenarioAFile n] 180 = Except.ok [] ∧
    (analyze_file_efficiency [scenarioAFile n]).small_files = [] ∧
    (analyze_file_efficiency [scenarioAFile n]).inefficient_replication = [] ∧
    identify_orphaned_temp_files (n : ℚ) [scenarioAFile n] = [] ∧
    (calculate_current_costs defaultStorageCosts (scenarioAScan n)).storage_cost =
      3 / 128 := by
  have hpred : coldPred (n : ℚ) 180 (scenarioAFile n) = false := by
    rw [coldPred, decide_eq_false_iff_not]
    show ¬ ((n : ℚ) < (n : ℚ) - 180 * msPerDay)
    rw [msPerDay]
    intro hlt
    linarith
  have hlist : coldDataList (n : ℚ) 180 [scenarioAFile n] = [] := by
    rw [coldDataList]
    rw [List.filter_cons_of_neg (by simp [hpred]), List.filter_nil]
    rfl
  refine ⟨?_, rfl, rfl, rfl, ?_⟩
  · rw [identify_cold_data, if_neg, hlist]
    rintro ⟨h0, -⟩
    exact absurd h0 (by decide)
  · have h : (calculate_current_costs defaultStorageCosts (scenarioAScan n)).storage_cost =
        sizeGbOf [scenarioAFile n] * (4 / 100) * 3 := rfl
    rw [h]
    norm_num [sizeGbOf, scenarioAFile]

/-! ### Claim C4 -/

/-- Unfolding equation for `splitSlash` on a cons, given the split of
the tail. -/
theorem splitSlash_cons {cs : List Char} {seg : List Char} {segs : List (List Char)}
    (c : Char) (h : splitSlash cs = seg :: segs) :
    splitSlash (c :: cs) =
      if c = '/' then [] :: seg :: segs else (c :: seg) :: segs := by
  rw [splitSlash, h]

/-- Splitting never yields an empty segment list (Python
`s.split("/")` always has at least one element). -/
theorem splitSlash_ne_nil (s : List Char) : splitSlash s ≠ [] := by
  induction s with
  | nil => simp [splitSlash]
  | cons c cs ih =>
    rcases h : splitSlash cs with _ | ⟨seg, segs⟩
    · exact absurd h ih
    · rw [splitSlash_cons c h]
      by_cases hc : c = '/'
      · simp [hc]
      · simp [hc]

/-- Joining the split reconstructs the string:
`"/".join(s.split("/")) == s`. -/
theorem joinSlash_splitSlash (s : List Char) : joinSlash (splitSlash s) = s := by
  induction s with
  | nil => rfl
  | cons c cs ih =>
    rcases h : splitSlash cs with _ | ⟨seg, segs⟩
    · exact absurd h (splitSlash_ne_nil cs)
    · rw [h] at ih
      rw [splitSlash_cons c h]
      by_cases hc : c = '/'
      · rw [if_pos hc, hc]
        show '/' :: joinSlash (seg :: segs) = '/' :: cs
        rw [ih]
      · rw [if_neg hc]
        cases segs with
        | nil =>
          show c :: seg = c :: cs
          rw [show joinSlash [seg] = seg from rfl] at ih
          rw [ih]
        | cons s2 ss =>
          show (c :: seg) ++ '/' :: joinSlash (s2 :: ss) = c :: cs
          rw [show joinSlash (seg :: s2 :: ss) = seg ++ '/' :: joinSlash (s2 :: ss) from
            rfl] at ih
          rw [List.cons_append, ih]

/-- A string with no slash splits into the single segment `[s]`. -/
theorem splitSlash_of_no_slash {s : List Char} (h : '/' ∉ s) : splitSlash s = [s] := by
  induction s with
  | nil => rfl
  | cons c cs ih =>
    have hc : ¬ c = '/' := fun hcc => h (by rw [hcc]; exact List.mem_cons_self _ _)
    have hcs : '/' ∉ cs := fun hm => h (List.mem_cons_of_mem _ hm)
    rw [splitSlash_cons c (ih hcs), if_neg hc]

/-- No segment produced by splitting contains a slash. -/
theorem no_slash_of_mem_splitSlash (s : List Char) :
    ∀ seg ∈ splitSlash s, '/' ∉ seg := by
  induction s with
  | nil =>
    intro seg hseg
    rw [show splitSlash [] = [[]] from rfl, List.mem_singleton] at hseg
    rw [hseg]
    exact List.not_mem_nil '/'
  | cons c cs ih =>
    intro seg hseg
    rcases h : splitSlash cs with _ | ⟨s1, ss⟩
    · exact absurd h (splitSlash_ne_nil cs)
    · rw [splitSlash_cons c h] at hseg
      by_cases hc : c = '/'
      · rw [if_pos hc] at hseg
        rcases List.mem_cons.mp hseg with h1 | h2
        · rw [h1]
          exact List.not_mem_nil '/'
        · exact ih seg (h ▸ h2)
      · rw [if_neg hc] at hseg
        rcases List.mem_cons.mp hseg with h1 | h2
        · rw [h1]
          intro hm
          rcases List.mem_cons.mp hm with h3 | h4
          · exact hc h3.symm
          · exact ih s1 (h ▸ List.mem_cons_self s1 ss) h4
        · exact ih seg (h ▸ List.mem_cons_of_mem s1 h2)

/-- A string containing a slash splits into at least two segments. -/
theorem two_le_splitSlash_length {s : List Char} (h : '/' ∈ s) :
    2 ≤ (splitSlash s).length := by
  induction s with
  | nil => exact absurd h (List.not_mem_nil '/')
  | cons c cs ih =>
    rcases hcs : splitSlash cs with _ | ⟨s1, ss⟩
    · exact absurd hcs (splitSlash_ne_nil cs)
    · rw [splitSlash_cons c hcs]
      by_cases hc : c = '/'
      · rw [if_pos hc]
        simp
      · rw [if_neg hc]
        rcases List.mem_cons.mp h with h1 | h2
        · exact absurd h1.symm hc
        · have := ih h2
          rw [hcs] at this
          simpa using this

/-- Joining a list of at least two segments splits as: join of all but
the last, a slash, then the last segment. -/
theorem joinSlash_dropLast {segs : List (List Char)} (h2 : 2 ≤ segs.length) :
    joinSlash segs = joinSlash segs.dropLast ++ '/' :: (segs.getLast?).getD [] := by
  induction segs with
  | nil => simp at h2
  | cons a rest ih =>
    cases rest with
    | nil => simp at h2
    | cons b t =>
      cases t with
      | nil => rfl
      | cons c t2 =>
        have hlen : 2 ≤ (b :: c :: t2).length := by simp
        have hstep : joinSlash (a :: b :: c :: t2) =
            a ++ '/' :: joinSlash (b :: c :: t2) := rfl
        rw [hstep, ih hlen]
        have hd : (a :: b :: c :: t2).dropLast = a :: (b :: c :: t2).dropLast := rfl
        rw [hd]
        have hjoin : joinSlash (a :: (b :: c :: t2).dropLast) =
            a ++ '/' :: joinSlash ((b :: c :: t2).dropLast) := by
          have hdl : (b :: c :: t2).dropLast = (b :: (c :: t2).dropLast) := rfl
          rw [hdl]
          rfl
        rw [hjoin]
        have hlast : (a :: b :: c :: t2).getLast? = (b :: c :: t2).getLast? := rfl
        rw [hlast, List.append_assoc]
        rfl

/-- On a path containing a slash, `extractDirectory` is the join of all
split segments but the last. -/
theorem extractDirectory_of_slash {p : String} (hp : '/' ∈ p.data) :
    (extractDirectory p).data = joinSlash ((splitSlash p.data).dropLast) := by
  rw [extractDirectory, if_pos (by simpa using hp)]

/-- Reconstruction: on a path containing a slash, the extracted
directory, a slash, and the last segment reassemble the path, and the
last segment itself contains no slash — so the directory is exactly the
path with its final segment removed. -/
theorem extractDirectory_reconstruct {p : String} (hp : '/' ∈ p.data) :
    (extractDirectory p).data ++ '/' :: lastSegment p.data = p.data ∧
    '/' ∉ lastSegment p.data := by
  have h2 : 2 ≤ (splitSlash p.data).length := two_le_splitSlash_length hp
  have hne : splitSlash p.data ≠ [] := splitSlash_ne_nil p.data
  constructor
  · rw [extractDirectory_of_slash hp, lastSegment, ← joinSlash_dropLast h2,
      joinSlash_splitSlash]
  · rw [lastSegment, List.getLast?_eq_getLast_of_ne_nil hne]
    exact no_slash_of_mem_splitSlash p.data _ (List.getLast_mem hne)

/-- A root file (leading slash, no further slash) maps to the empty
string, because `split` yields `["", name]`, `[:-1]` keeps `[""]`, and
joining gives `""`. -/
theorem extractDirectory_root_file {q : String} {rest : List Char}
    (hq : q.data = '/' :: rest) (hrest : '/' ∉ rest) :
    extractDirectory q = "" := by
  have hp : '/' ∈ q.data := by
    rw [hq]
    exact List.mem_cons_self _ _
  have hsplit : splitSlash q.data = [[], rest] := by
    rw [hq, splitSlash_cons '/' (splitSlash_of_no_slash hrest), if_pos rfl]
  rw [extractDirectory, if_pos (by simpa using hp), hsplit]
  rfl

/-- Lookup after an association-list update. -/
theorem get_updAssoc (k : String) (g : DirStats → DirStats) (d : String)
    (m : List (String × DirStats)) :
    DirStats.get (updAssoc k g m) d =
      if d = k then g (DirStats.get m d) else DirStats.get m d := by
  induction m with
  | nil =>
    by_cases h : d = k
    · rw [if_pos h, h]
      simp [DirStats.get, updAssoc, List.find?]
    · rw [if_neg h]
      have h' : ¬ (k = d) := fun e => h e.symm
      simp [DirStats.get, updAssoc, List.find?, h']
  | cons hd tl ih =>
    obtain ⟨k', v⟩ := hd
    by_cases hk : k' = k
    · rw [updAssoc, if_pos hk]
      by_cases hd2 : d = k
      · rw [if_pos hd2]
        have he : k' = d := hk.trans hd2.symm
        simp [DirStats.get, List.find?, he]
      · rw [if_neg hd2]
        have hk'd : ¬ k' = d := fun e => hd2 (e.symm.trans hk)
        simp [DirStats.get, List.find?, hk'd]
    · rw [updAssoc, if_neg hk]
      by_cases hd2 : k' = d
      · have hdk : ¬ d = k := fun e => hk (hd2.trans e)
        rw [if_neg hdk]
        simp [DirStats.get, List.find?, hd2]
      · have hL : DirStats.get ((k', v) :: updAssoc k g tl) d =
            DirStats.get (updAssoc k g tl) d := by
          simp [DirStats.get, List.find?, hd2]
        have hR : DirStats.get ((k', v) :: tl) d = DirStats.get tl d := by
          simp [DirStats.get, List.find?, hd2]
        rw [hL, hR, ih]

/-- One record contributes 1 to the file count of exactly its
`extractDirectory` key. -/
theorem file_count_dirStatsStep (m : List (String × DirStats)) (f : FileRecord)
    (d : String) :
    (DirStats.get (dirStatsStep m f) d).file_count =
      (DirStats.get m d).file_count +
        (if extractDirectory f.path = d then 1 else 0) := by
  rw [dirStatsStep, get_updAssoc]
  by_cases h : d = extractDirectory f.path
  · rw [if_pos h, if_pos h.symm]
  · rw [if_neg h, if_neg (fun e => h e.symm)]
    simp

/-- The accumulated file count of directory `d` counts exactly the
records whose extracted directory is `d`. -/
theorem file_count_directory_stats (files : List FileRecord) (d : String) :
    (DirStats.get (directory_stats files) d).file_count =
      files.countP (fun f => decide (extractDirectory f.path = d)) := by
  suffices h : ∀ m, (DirStats.get (List.foldl dirStatsStep m files) d).file_count =
      (DirStats.get m d).file_count +
        files.countP (fun f => decide (extractDirectory f.path = d)) by
    have h0 := h []
    rw [directory_stats, h0]
    have hinit : (DirStats.get [] d).file_count = 0 := rfl
    omega
  induction files with
  | nil =>
    intro m
    rfl
  | cons f fs ih =>
    intro m
    rw [List.foldl_cons, ih, file_count_dirStatsStep, List.countP_cons]
    by_cases h : extractDirectory f.path = d
    · simp [h]
      omega
    · simp [h]

/-- C4 counterexample: for the root file `/a.txt`, the code computes
directory `""` (empty string), not `"/"` as the claim states: the
stats table holds the record under key `""` and nothing under `"/"`. -/
theorem root_file_under_empty_string :
    extractDirectory "/a.txt" = "" ∧
    DirStats.get (directory_stats [⟨"/a.txt", 5, 1, 0, 0, 0⟩]) "/" = DirStats.init ∧
    (DirStats.get (directory_stats [⟨"/a.txt", 5, 1, 0, 0, 0⟩]) "").file_count = 1 :=
  ⟨rfl, rfl, rfl⟩

/-- C4 (amended): in `analyze_directory_structure` every record is
accumulated under its extracted parent directory, which for a path
containing a slash is the path with its final segment removed; but a
root file (a path whose only slash is the leading one) is accumulated
under the directory `""` (empty string), not `"/"` — the `else "/"`
branch fires only for paths containing no slash at all. -/
theorem analyze_directory_structure_spec (p q : String) (rest : List Char)
    (files : List FileRecord) (d : String)
    (hp : '/' ∈ p.data) (hq : q.data = '/' :: rest) (hrest : '/' ∉ rest) :
    ((extractDirectory p).data ++ '/' :: lastSegment p.data = p.data ∧
      '/' ∉ lastSegment p.data) ∧
    extractDirectory q = "" ∧
    (DirStats.get (directory_stats files) d).file_count =
      files.countP (fun f => decide (extractDirectory f.path = d)) :=
  ⟨extractDirectory_reconstruct hp, extractDirectory_root_file hq hrest,
    file_count_directory_stats files d⟩

/-- Witness for C4's amended statement at `/a/b.txt` (nested path) and
`/a.txt` (root file). -/
theorem analyze_directory_structure_spec_witness :
    ((extractDirectory "/a/b.txt").data ++ '/' :: lastSegment "/a/b.txt".data =
        "/a/b.txt".data ∧
      '/' ∉ lastSegment "/a/b.txt".data) ∧
    extractDirectory "/a.txt" = "" ∧
    (DirStats.get (directory_stats [⟨"/x/y.txt", 5, 1, 0, 0, 0⟩]) "/x").file_count =
      [FileRecord.mk "/x/y.txt" 5 1 0 0 0].countP
        (fun f => decide (extractDirectory f.path = "/x")) :=
  analyze_directory_structure_spec "/a/b.txt" "/a.txt" "a.txt".data
    [⟨"/x/y.txt", 5, 1, 0, 0, 0⟩] "/x" (by decide) rfl (by decide)
